import Mathlib

/-!
Shallow embedding of the geometric matching core of the CfdOF repository
(src/CfdTools.py): the tolerant scalar comparison floatEqual, the per-element
identity test isSameGeometry, the single-element lookup findElementInShape,
and the bulk sort-merge matcher matchFacesToTargetShape together with the
tolerant sort-key comparator built by compKeyFn.

Modelling conventions:
- Python floats are modelled as exact rationals; sys.float_info.epsilon is
  the IEEE double machine epsilon 2 ^ (-52), and the literal 1e-12 is taken
  as the exact rational 10 ^ (-12).
- A geometric element is a record of the queries the code performs on it
  (ShapeType, CenterOfMass, Area, Vertexes) plus a tag field standing for
  object identity / name, which the geometric code never inspects.
- FreeCAD console error output is modelled as a returned list of messages
  (the quote characters that the original messages place around object
  names are elided from the modelled message texts).
- Functions that raise RuntimeError are modelled in the Except monad.
- Python list.sort is a stable sort driven by the lt comparison of the
  wrapper class built by compKeyFn; it is modelled as a stable insertion
  sort (List.insertionSort) placing x before y exactly when lt y x fails,
  which agrees with any stable sort whenever the comparison is consistent.
- The while loop of the sort-merge sweep is modelled with an explicit fuel
  parameter exceeding the loop variant
  (remaining src entries) * (mesh length + 1) + (remaining mesh entries),
  which strictly decreases at every iteration, so the fuel never runs out.
-/

namespace CfdOF

/-- 3D point with rational coordinates (model of the FreeCAD vector). -/
structure Vec3 where
  x : ℚ
  y : ℚ
  z : ℚ
deriving DecidableEq

/-- Shape type tags of the geometry kernel. -/
inductive ShapeType where
  | Vertex
  | Edge
  | Wire
  | Face
  | Shell
  | Solid
  | CompSolid
  | Compound
deriving DecidableEq

/-- A geometric element as consumed by the matching code: its shape type,
center of mass, area and vertex list.  The tag field models object
identity / name and is never read by any of the geometric functions. -/
structure Element where
  ShapeType : ShapeType
  CenterOfMass : Vec3
  Area : ℚ
  Vertexes : List Vec3
  tag : String := ""
deriving DecidableEq

instance : Inhabited Element :=
  ⟨{ ShapeType := ShapeType.Face, CenterOfMass := ⟨0, 0, 0⟩, Area := 0, Vertexes := [] }⟩

/-- A shape exposing its sub-element lists, as accessed by the code. -/
structure Shape where
  ShapeType : ShapeType := ShapeType.Solid
  Faces : List Element := []
  Solids : List Element := []
  Edges : List Element := []
  Vertexes : List Element := []
deriving DecidableEq

/-- sys.float_info.epsilon for IEEE doubles. -/
def float_info_epsilon : ℚ := 1 / 2 ^ 52

/-- src/CfdTools.py, floatEqual: test whether a and b are equal within an
absolute and relative tolerance (reltol = 10 * machine epsilon,
abstol = 1e-12). -/
def floatEqual (a b : ℚ) : Bool :=
  decide (|a - b| < 1 / 10 ^ 12) ||
    decide (|a - b| ≤ 10 * float_info_epsilon * max |a| |b|)

/-- Tolerant equality as worded in the spec (section 4.1): true when
|a-b| < absTol OR |a-b| <= relTol * max(|a|,|b|), with absTol = 1e-12 and
relTol = 10 * machine epsilon. -/
def floatEqualSpec (a b : ℚ) : Bool :=
  decide (|a - b| < 1 / 10 ^ 12) ||
    decide (|a - b| ≤ (10 * float_info_epsilon) * max |a| |b|)

/-- One vertex-coordinate comparison of isSameGeometry: all three
coordinates floatEqual. -/
def vertexMatch (vs1 vs2 : Vec3) : Bool :=
  floatEqual vs1.x vs2.x && floatEqual vs1.y vs2.y && floatEqual vs1.z vs2.z

/-- The vertex-counting loop of isSameGeometry: for each vertex of the
first list, scan the second list and count (once, because of the break)
when some vertex of the second list matches in all three coordinates. -/
def countMatchedVertexes (l1 l2 : List Vec3) : Nat :=
  l1.countP (fun vs1 => l2.any (fun vs2 => vertexMatch vs1 vs2))

/-- src/CfdTools.py, isSameGeometry.  Returns some result only when the
vertex counts are equal and positive; otherwise the Python function falls
through and returns None, modelled as none. -/
def isSameGeometry (shape1 shape2 : Element) : Option Bool :=
  if shape1.Vertexes.length = shape2.Vertexes.length ∧ 0 < shape1.Vertexes.length then
    if !(floatEqual shape1.CenterOfMass.x shape2.CenterOfMass.x) ||
        !(floatEqual shape1.CenterOfMass.y shape2.CenterOfMass.y) ||
        !(floatEqual shape1.CenterOfMass.z shape2.CenterOfMass.z) then
      some false
    else if !(floatEqual shape1.Area shape2.Area) then
      some false
    else if countMatchedVertexes shape1.Vertexes shape2.Vertexes = shape1.Vertexes.length then
      some true
    else
      some false
  else
    none

/-- Names of the shape types, as used to build element identifiers. -/
def shapeTypeName : ShapeType → String
  | ShapeType.Vertex => "Vertex"
  | ShapeType.Edge => "Edge"
  | ShapeType.Wire => "Wire"
  | ShapeType.Face => "Face"
  | ShapeType.Shell => "Shell"
  | ShapeType.Solid => "Solid"
  | ShapeType.CompSolid => "CompSolid"
  | ShapeType.Compound => "Compound"

/-- The linear scan inside findElementInShape: return the identifier of the
first candidate that isSameGeometry accepts (truthiness in Python: only
some true counts). -/
def scanForSame (st : String) (anElement : Element) : List Element → Nat → Option String
  | [], _ => none
  | e :: rest, index =>
    match isSameGeometry e anElement with
    | some true => some (st ++ toString (index + 1))
    | _ => scanForSame st anElement rest (index + 1)

/-- src/CfdTools.py, findElementInShape.  The second component of the
result collects the FreeCAD console error messages the function prints. -/
def findElementInShape (aShape : Shape) (anElement : Element) :
    Option String × List String :=
  match anElement.ShapeType with
  | ShapeType.Solid =>
    (match scanForSame (shapeTypeName anElement.ShapeType) anElement aShape.Solids 0 with
     | some ele => (some ele, [])
     | none => (none, ["Solid not found in shape\n"]))
  | ShapeType.CompSolid =>
    (match scanForSame (shapeTypeName anElement.ShapeType) anElement aShape.Solids 0 with
     | some ele => (some ele, [])
     | none => (none, ["Solid not found in shape\n"]))
  | ShapeType.Face =>
    (scanForSame (shapeTypeName anElement.ShapeType) anElement aShape.Faces 0, [])
  | ShapeType.Shell =>
    (scanForSame (shapeTypeName anElement.ShapeType) anElement aShape.Faces 0, [])
  | ShapeType.Edge =>
    (scanForSame (shapeTypeName anElement.ShapeType) anElement aShape.Edges 0, [])
  | ShapeType.Wire =>
    (scanForSame (shapeTypeName anElement.ShapeType) anElement aShape.Edges 0, [])
  | ShapeType.Vertex =>
    (scanForSame (shapeTypeName anElement.ShapeType) anElement aShape.Vertexes 0, [])
  | ShapeType.Compound => (none, ["Compound is not supported.\n"])

/-- The eq comparison of the sort-key wrapper class K built by compKeyFn
in src/CfdTools.py. -/
def K_eq (a b : ℚ) : Bool := floatEqual a b

/-- The lt comparison of the wrapper class K: strictly numerically below
and not floatEqual. -/
def K_lt (a b : ℚ) : Bool := decide (a < b) && !(floatEqual a b)

/-- The gt comparison of the wrapper class K: strictly numerically above
and not floatEqual. -/
def K_gt (a b : ℚ) : Bool := decide (b < a) && !(floatEqual a b)

/-- A reference: (container object name, sub-element name). -/
abbrev Ref := String × String

/-- One entry of src_face_list: (element, group index, reference). -/
abbrev SrcEntry := Element × Nat × Ref

/-- One entry of mesh_face_list: (face, original index). -/
abbrev MeshEntry := Element × Nat

/-- One candidate entry: (src position, group index, reference). -/
abbrev Cand := Nat × Nat × Ref

/-- Ordering used by the stable sort of Python list.sort under the
compKeyFn wrapper: x may stay before y exactly when the lt comparison of
the wrapped key of y against that of x fails. -/
def pyLe (key : α → ℚ) (a b : α) : Prop := K_lt (key b) (key a) = false

instance (key : α → ℚ) : DecidableRel (pyLe key) := fun _ _ => by
  unfold pyLe
  infer_instance

/-- Stable sort by one key with the tolerant comparator, modelling one
list.sort call of src/CfdTools.py. -/
def pySortByKey (key : α → ℚ) (l : List α) : List α :=
  List.insertionSort (pyLe key) l

/-- Modelled from the spec: document lookup FreeCAD.ActiveDocument.getObject
is missing from src/; per spec section 3 an ElementReference names its
owning CAD object and is resolved via the external document collaborator,
modelled as an explicit name-to-shape association list. -/
def getObject (doc : List (String × Shape)) (name : String) : Option Shape :=
  (doc.find? (fun p => p.1 == name)).map (fun p => p.2)

/-- Resolution of a single reference inside matchFacesToTargetShape,
including the two RuntimeError messages raised there.  The sub-element
lookup ge stands for the external geometry kernel call
obj.Shape.getElement, whose Part.OCCError is modelled by none. -/
def resolveRef (doc : List (String × Shape)) (ge : Shape → String → Option Element)
    (br : Ref) : Except String Element :=
  match getObject doc br.1 with
  | none =>
    Except.error ("Referenced object " ++ br.1 ++ " not found - object may have been deleted")
  | some shp =>
    match ge shp br.2 with
    | none =>
      Except.error
        ("Referenced face " ++ br.1 ++ ":" ++ br.2 ++ " not found - face may have been deleted")
    | some bf => Except.ok bf

/-- The inner loop of the src_face_list construction: resolve every
reference of one group, pairing it with the group index; a raised error
aborts the whole loop. -/
def resolveList (doc : List (String × Shape)) (ge : Shape → String → Option Element)
    (i : Nat) : List Ref → Except String (List SrcEntry)
  | [] => Except.ok []
  | br :: rest =>
    match resolveRef doc ge br with
    | Except.error e => Except.error e
    | Except.ok bf =>
      match resolveList doc ge i rest with
      | Except.error e => Except.error e
      | Except.ok tail => Except.ok ((bf, i, br) :: tail)

/-- The outer loop of the src_face_list construction over the groups. -/
def resolveGroups (doc : List (String × Shape)) (ge : Shape → String → Option Element)
    (i : Nat) : List (List Ref) → Except String (List SrcEntry)
  | [] => Except.ok []
  | rl :: rest =>
    match resolveList doc ge i rl with
    | Except.error e => Except.error e
    | Except.ok l =>
      match resolveGroups doc ge (i + 1) rest with
      | Except.error e => Except.error e
      | Except.ok r => Except.ok (l ++ r)

/-- The while loop of the sort-merge sweep of matchFacesToTargetShape:
two cursors i (src) and j (mesh), the start of the current tie run
(j_match_start) and the matching flag; candidates are appended to the
per-mesh-face accumulator.  The fuel argument exceeds the strictly
decreasing loop variant, see the module comment. -/
def sweepAux (src : List SrcEntry) (mesh : List MeshEntry) :
    Nat → Nat → Nat → Nat → Bool → List (List Cand) → List (List Cand)
  | 0, _, _, _, _, acc => acc
  | fuel + 1, i, j, jms, matching, acc =>
    if h : i < src.length ∧ j < mesh.length then
      let bfe := src.get ⟨i, h.1⟩
      let bf := bfe.1
      let mf := (mesh.get ⟨j, h.2⟩).1
      if floatEqual bf.CenterOfMass.x mf.CenterOfMass.x then
        if floatEqual bf.CenterOfMass.y mf.CenterOfMass.y then
          if floatEqual bf.CenterOfMass.z mf.CenterOfMass.z then
            sweepAux src mesh fuel i (j + 1) (if matching then jms else j) true
              (acc.set j (acc.getD j [] ++ [(i, bfe.2.1, bfe.2.2)]))
          else if bf.CenterOfMass.z < mf.CenterOfMass.z then
            sweepAux src mesh fuel (i + 1) (if matching then jms else j) jms false acc
          else
            sweepAux src mesh fuel i (j + 1) jms false acc
        else if bf.CenterOfMass.y < mf.CenterOfMass.y then
          sweepAux src mesh fuel (i + 1) (if matching then jms else j) jms false acc
        else
          sweepAux src mesh fuel i (j + 1) jms false acc
      else if bf.CenterOfMass.x < mf.CenterOfMass.x then
        sweepAux src mesh fuel (i + 1) (if matching then jms else j) jms false acc
      else
        sweepAux src mesh fuel i (j + 1) jms false acc
    else
      acc

/-- The comprehensive-matching pass of matchFacesToTargetShape: re-verify
every recorded candidate with isSameGeometry (truthiness: only some true
passes) and append the (group, reference) pair at the original mesh face
index. -/
def verifyCandidates (srcSorted : List SrcEntry)
    (pairs : List (List Cand × MeshEntry)) (init : List (List (Nat × Ref))) :
    List (List (Nat × Ref)) :=
  pairs.foldl (fun acc p =>
    p.1.foldl (fun acc2 c =>
      match isSameGeometry (srcSorted.getD c.1 default).1 p.2.1 with
      | some true => acc2.set p.2.2 (acc2.getD p.2.2 [] ++ [(c.2.1, c.2.2)])
      | _ => acc2) acc) init

/-- The three stable sorts applied to src_face_list: by z, then y, then
x center-of-mass coordinate (the x sort dominating, the stable passes
breaking ties by the earlier keys). -/
def sortEntries3 (src_face_list : List SrcEntry) : List SrcEntry :=
  pySortByKey (fun bf => bf.1.CenterOfMass.x)
    (pySortByKey (fun bf => bf.1.CenterOfMass.y)
      (pySortByKey (fun bf => bf.1.CenterOfMass.z) src_face_list))

/-- The three stable sorts applied to mesh_face_list: by z, then y, then
x center-of-mass coordinate (the x sort dominating). -/
def sortMesh3 (mesh_face_list : List MeshEntry) : List MeshEntry :=
  pySortByKey (fun mf => mf.1.CenterOfMass.x)
    (pySortByKey (fun mf => mf.1.CenterOfMass.y)
      (pySortByKey (fun mf => mf.1.CenterOfMass.z) mesh_face_list))

/-- The sorted-phase core of matchFacesToTargetShape, starting from the
already resolved src_face_list. -/
def matchFacesCore (src_face_list : List SrcEntry) (shape : Shape) :
    List (List (Nat × Ref)) :=
  let mesh_face_list := shape.Faces.zip (List.range shape.Faces.length)
  let srcSorted := sortEntries3 src_face_list
  let meshSorted := sortMesh3 mesh_face_list
  let cands := sweepAux srcSorted meshSorted
    ((srcSorted.length + 1) * (meshSorted.length + 1)) 0 0 0 false
    (List.replicate meshSorted.length [])
  verifyCandidates srcSorted (cands.zip meshSorted)
    (List.replicate meshSorted.length [])

/-- src/CfdTools.py, matchFacesToTargetShape (Python 3 branch): geometric
matching of groups of face references against the faces of a target
shape.  doc and ge model the external document and geometry-kernel
collaborators; a RuntimeError raised during reference resolution aborts
the call; otherwise the result entry for each original face index lists
the (group index, reference) pairs confirmed for it. -/
def matchFacesToTargetShape (doc : List (String × Shape))
    (ge : Shape → String → Option Element) (ref_lists : List (List Ref))
    (shape : Shape) : Except String (List (List (Nat × Ref))) :=
  match resolveGroups doc ge 0 ref_lists with
  | Except.error e => Except.error e
  | Except.ok src_face_list => Except.ok (matchFacesCore src_face_list shape)

/-- A concrete model of the geometry-kernel sub-element lookup
obj.Shape.getElement for face names, used to instantiate witnesses:
FaceN resolves to the N-th face (1-based). -/
def getElementStd (s : Shape) (nm : String) : Option Element :=
  (List.range s.Faces.length).findSome? (fun k =>
    if nm = "Face" ++ toString (k + 1) then s.Faces.get? k else none)

/-- Concrete element for the asymmetry counterexample: two coincident
vertices. -/
def dupVertexElem : Element :=
  { ShapeType := ShapeType.Face, CenterOfMass := ⟨0, 0, 0⟩, Area := 1,
    Vertexes := [⟨0, 0, 0⟩, ⟨0, 0, 0⟩] }

/-- Concrete element for the asymmetry counterexample: one vertex shared
with dupVertexElem and one far away. -/
def splitVertexElem : Element :=
  { ShapeType := ShapeType.Face, CenterOfMass := ⟨0, 0, 0⟩, Area := 1,
    Vertexes := [⟨0, 0, 0⟩, ⟨1, 0, 0⟩] }

/-- Concrete face used in the identify round-trip counterexample. -/
def rtFace : Element :=
  { ShapeType := ShapeType.Face, CenterOfMass := ⟨0, 0, 0⟩, Area := 1,
    Vertexes := [⟨0, 0, 0⟩, ⟨1, 0, 0⟩, ⟨0, 1, 0⟩] }

/-- A shape containing the same face twice, for the round-trip
counterexample. -/
def rtShape : Shape := { Faces := [rtFace, rtFace] }

/-- The query element for the round-trip examples: rtFace with its vertex
list rotated by one position. -/
def rtQuery : Element :=
  { ShapeType := ShapeType.Face, CenterOfMass := ⟨0, 0, 0⟩, Area := 1,
    Vertexes := [⟨0, 1, 0⟩, ⟨0, 0, 0⟩, ⟨1, 0, 0⟩] }

/-- A shape containing rtFace once, for the round-trip witness. -/
def rtShape1 : Shape := { Faces := [rtFace] }

/-- Face with center at the origin, area 1, for the identity-matching
counterexample. -/
def idFace1 : Element :=
  { ShapeType := ShapeType.Face, CenterOfMass := ⟨0, 0, 0⟩, Area := 1,
    Vertexes := [⟨0, 0, 0⟩] }

/-- Face with the same center of mass as idFace1 but a different area and
vertex, for the identity-matching counterexample. -/
def idFace2 : Element :=
  { ShapeType := ShapeType.Face, CenterOfMass := ⟨0, 0, 0⟩, Area := 2,
    Vertexes := [⟨1, 0, 0⟩] }

/-- Shape whose two faces share a center of mass, for the
identity-matching counterexample. -/
def idShape : Shape := { Faces := [idFace1, idFace2] }

/-- Document holding idShape under the name S. -/
def idDoc : List (String × Shape) := [("S", idShape)]

/-- Source entries sharing one center of mass, for the sweep
trailing-run defect. -/
def tailRunSrc : List SrcEntry :=
  [(idFace1, 0, ("A", "Face1")), (idFace1, 0, ("A", "Face2"))]

/-- Single mesh entry with the same center of mass, for the sweep
trailing-run defect. -/
def tailRunMesh : List MeshEntry := [(idFace1, 0)]

/-- Shape with a single face, used in the unresolved-reference
examples. -/
def oneFaceShape : Shape := { Faces := [idFace1] }

/-- Document holding oneFaceShape under the name A; the name B does not
resolve. -/
def oneFaceDoc : List (String × Shape) := [("A", oneFaceShape)]

/-- A Compound candidate element, for the unsupported-shape witness. -/
def compoundElem : Element :=
  { ShapeType := ShapeType.Compound, CenterOfMass := ⟨0, 0, 0⟩, Area := 0, Vertexes := [] }

/-- Face at x = 0 for the identity-matching witness. -/
def wFace1 : Element :=
  { ShapeType := ShapeType.Face, CenterOfMass := ⟨0, 0, 0⟩, Area := 1,
    Vertexes := [⟨0, 0, 0⟩] }

/-- Face at x = 1 for the identity-matching witness. -/
def wFace2 : Element :=
  { ShapeType := ShapeType.Face, CenterOfMass := ⟨1, 0, 0⟩, Area := 1,
    Vertexes := [⟨1, 0, 0⟩] }

/-- Shape with two x-separated faces, for the identity-matching
witness. -/
def wShape : Shape := { Faces := [wFace1, wFace2] }

/-- Document holding wShape under the name S. -/
def wDoc : List (String × Shape) := [("S", wShape)]

instance exceptDecidableEq {ε α : Type} [DecidableEq ε] [DecidableEq α] :
    DecidableEq (Except ε α) := fun a b =>
  match a, b with
  | Except.ok x, Except.ok y =>
    if h : x = y then Decidable.isTrue (by rw [h]) else Decidable.isFalse (by simp [h])
  | Except.error e, Except.error f =>
    if h : e = f then Decidable.isTrue (by rw [h]) else Decidable.isFalse (by simp [h])
  | Except.ok _, Except.error _ => Decidable.isFalse (by simp)
  | Except.error _, Except.ok _ => Decidable.isFalse (by simp)

/- ------------------------------------------------------------------ -/
/- Theorems -/
/- ------------------------------------------------------------------ -/

theorem floatEqual_refl (a : ℚ) : floatEqual a a = true := by
  simp only [floatEqual, sub_self, abs_zero, Bool.or_eq_true, decide_eq_true_eq]
  left
  norm_num

theorem floatEqual_symm (a b : ℚ) : floatEqual a b = floatEqual b a := by
  simp only [floatEqual, abs_sub_comm a b, max_comm |a| |b|]

theorem floatEqual_ne_of_false {a b : ℚ} (h : floatEqual a b = false) : a ≠ b := by
  intro hab
  rw [hab, floatEqual_refl] at h
  exact Bool.true_eq_false.mp h

theorem fe_zero_one : floatEqual 0 1 = false := by
  unfold floatEqual float_info_epsilon
  norm_num

theorem fe_one_zero : floatEqual 1 0 = false := by
  unfold floatEqual float_info_epsilon
  norm_num

theorem fe_one_two : floatEqual 1 2 = false := by
  unfold floatEqual float_info_epsilon
  norm_num

theorem fe_two_one : floatEqual 2 1 = false := by
  unfold floatEqual float_info_epsilon
  norm_num

theorem K_lt_of_fe {a b : ℚ} (h : floatEqual a b = true) : K_lt a b = false := by
  simp [K_lt, h]

theorem K_lt_zero_zero : K_lt 0 0 = false := K_lt_of_fe (floatEqual_refl 0)

theorem vertexMatch_refl (v : Vec3) : vertexMatch v v = true := by
  simp [vertexMatch, floatEqual_refl]

theorem countMatchedVertexes_eq_length {l1 l2 : List Vec3}
    (h : ∀ v ∈ l1, ∃ w ∈ l2, vertexMatch v w = true) :
    countMatchedVertexes l1 l2 = l1.length := by
  unfold countMatchedVertexes
  rw [List.countP_eq_length]
  intro v hv
  rcases h v hv with ⟨w, hw, hm⟩
  rw [List.any_eq_true]
  exact ⟨w, hw, hm⟩

/-- C7: floatEqual holds exactly when the absolute difference is below
1e-12 or below 10 times machine epsilon relative to the larger magnitude;
it coincides with the tolerant-equality contract worded in the spec. -/
theorem floatEqual_matches_spec (a b : ℚ) :
    floatEqual a b = floatEqualSpec a b ∧
      (floatEqual a b = true ↔
        |a - b| < 1 / 10 ^ 12 ∨
          |a - b| ≤ (10 * float_info_epsilon) * max |a| |b|) := by
  constructor
  · rfl
  · simp [floatEqual, mul_assoc]

/-- C8: the comparison of the compKeyFn wrapper is a consistent
trichotomy: exactly one of lt, eq, gt holds for any pair, eq holds
exactly when floatEqual does, and when floatEqual fails the strict
numeric order decides. -/
theorem compKey_total_preorder (a b : ℚ) :
    (K_lt a b).toNat + (K_eq a b).toNat + (K_gt a b).toNat = 1 ∧
      K_eq a b = floatEqual a b ∧
      (floatEqual a b = false →
        K_lt a b = decide (a < b) ∧ K_gt a b = decide (b < a)) := by
  refine ⟨?_, rfl, ?_⟩
  · by_cases h : floatEqual a b = true
    · simp [K_lt, K_eq, K_gt, h]
    · rw [Bool.not_eq_true] at h
      have hne : a ≠ b := floatEqual_ne_of_false h
      rcases lt_trichotomy a b with hlt | heq | hgt
      · simp [K_lt, K_eq, K_gt, h, hlt, not_lt.mpr hlt.le]
      · exact absurd heq hne
      · simp [K_lt, K_eq, K_gt, h, hgt, not_lt.mpr hgt.le]
  · intro h
    simp [K_lt, K_gt, h]

/-- Closed instance of the compKeyFn trichotomy at the pair (0, 1). -/
theorem compKey_total_preorder_witness :
    (K_lt 0 1).toNat + (K_eq 0 1).toNat + (K_gt 0 1).toNat = 1 ∧
      K_eq 0 1 = floatEqual 0 1 ∧
      (floatEqual 0 1 = false →
        K_lt 0 1 = decide ((0 : ℚ) < 1) ∧ K_gt 0 1 = decide ((1 : ℚ) < 0)) :=
  compKey_total_preorder 0 1

/-- C10: isSameGeometry yields an actual boolean exactly under equal,
positive vertex counts; when the counts differ or the lists are empty it
returns none (the Python None), never the boolean false. -/
theorem isSameGeometry_none_iff (s1 s2 : Element) :
    isSameGeometry s1 s2 = none ↔
      ¬(s1.Vertexes.length = s2.Vertexes.length ∧ 0 < s1.Vertexes.length) := by
  unfold isSameGeometry
  split
  case isTrue h =>
    constructor
    · intro hnone
      exfalso
      revert hnone
      split
      · simp
      · split
        · simp
        · split <;> simp
    · intro hc
      exact absurd h hc
  case isFalse h =>
    simp [h]

/-- Closed instance of the none-result characterisation at elements with
differing vertex counts. -/
theorem isSameGeometry_none_iff_witness :
    isSameGeometry dupVertexElem idFace1 = none :=
  (isSameGeometry_none_iff dupVertexElem idFace1).mpr (by decide)

theorem isSameGeometry_eval (s1 s2 : Element)
    (hlen : s1.Vertexes.length = s2.Vertexes.length)
    (hpos : 0 < s1.Vertexes.length) :
    isSameGeometry s1 s2 =
      some (floatEqual s1.CenterOfMass.x s2.CenterOfMass.x &&
        floatEqual s1.CenterOfMass.y s2.CenterOfMass.y &&
        floatEqual s1.CenterOfMass.z s2.CenterOfMass.z &&
        floatEqual s1.Area s2.Area &&
        decide (countMatchedVertexes s1.Vertexes s2.Vertexes = s1.Vertexes.length)) := by
  unfold isSameGeometry
  rw [if_pos ⟨hlen, hpos⟩]
  cases hx : floatEqual s1.CenterOfMass.x s2.CenterOfMass.x <;>
    cases hy : floatEqual s1.CenterOfMass.y s2.CenterOfMass.y <;>
      cases hz : floatEqual s1.CenterOfMass.z s2.CenterOfMass.z <;>
        cases ha : floatEqual s1.Area s2.Area <;>
          simp [hx, hy, hz, ha] <;>
            split <;> simp_all

/-- C5: under equal positive vertex counts, isSameGeometry returns true
exactly when the centers of mass agree on all three axes, the areas
agree, and every vertex of the first element is matched by some vertex of
the second in all three coordinates; any center-of-mass or area mismatch
gives false. -/
theorem isSameGeometry_spec (s1 s2 : Element)
    (hlen : s1.Vertexes.length = s2.Vertexes.length)
    (hpos : 0 < s1.Vertexes.length) :
    isSameGeometry s1 s2 =
      some (floatEqual s1.CenterOfMass.x s2.CenterOfMass.x &&
        floatEqual s1.CenterOfMass.y s2.CenterOfMass.y &&
        floatEqual s1.CenterOfMass.z s2.CenterOfMass.z &&
        floatEqual s1.Area s2.Area &&
        decide (countMatchedVertexes s1.Vertexes s2.Vertexes = s1.Vertexes.length)) :=
  isSameGeometry_eval s1 s2 hlen hpos

/-- Closed instance of the isSameGeometry characterisation at two
concrete elements with a center-of-mass mismatch. -/
theorem isSameGeometry_spec_witness :
    isSameGeometry idFace1 idFace2 =
      some (floatEqual idFace1.CenterOfMass.x idFace2.CenterOfMass.x &&
        floatEqual idFace1.CenterOfMass.y idFace2.CenterOfMass.y &&
        floatEqual idFace1.CenterOfMass.z idFace2.CenterOfMass.z &&
        floatEqual idFace1.Area idFace2.Area &&
        decide (countMatchedVertexes idFace1.Vertexes idFace2.Vertexes =
          idFace1.Vertexes.length)) :=
  isSameGeometry_spec idFace1 idFace2 (by decide) (by decide)

/-- C3: findElementInShape on a Compound candidate emits the explicit
unsupported message on the error channel (and only then yields the
not-found value), so the condition is signalled rather than silent. -/
theorem findElementInShape_compound (aShape : Shape) (anElement : Element)
    (h : anElement.ShapeType = ShapeType.Compound) :
    findElementInShape aShape anElement = (none, ["Compound is not supported.\n"]) := by
  unfold findElementInShape
  rw [h]

/-- Closed instance of the Compound error at a concrete shape and
element. -/
theorem findElementInShape_compound_witness :
    findElementInShape rtShape compoundElem = (none, ["Compound is not supported.\n"]) :=
  findElementInShape_compound _ _ rfl

/-- C9 counterexample: isSameGeometry is not symmetric.  Both elements
have equal centers and areas and two vertices each; both duplicated
vertices of the first are matched by the first vertex of the second, but
the far vertex of the second has no match in the first. -/
theorem isSameGeometry_not_symmetric :
    isSameGeometry dupVertexElem splitVertexElem = some true ∧
      isSameGeometry splitVertexElem dupVertexElem = some false := by
  constructor
  · simp [isSameGeometry, dupVertexElem, splitVertexElem, countMatchedVertexes,
      List.countP_cons, List.countP_nil, vertexMatch, floatEqual_refl, fe_zero_one]
  · simp [isSameGeometry, dupVertexElem, splitVertexElem, countMatchedVertexes,
      List.countP_cons, List.countP_nil, vertexMatch, floatEqual_refl, fe_one_zero]

/-- C9 amended: the result of isSameGeometry depends only on geometry
(the identity tag is ignored on both sides), and the center-of-mass and
area prefilters are symmetric: under equal positive vertex counts a
mismatch there makes both orientations return false.  Full symmetry can
fail only in the vertex-matching stage. -/
theorem isSameGeometry_geometry_only (s1 s2 : Element) (t1 t2 : String)
    (hlen : s1.Vertexes.length = s2.Vertexes.length)
    (hpos : 0 < s1.Vertexes.length)
    (hmis : floatEqual s1.CenterOfMass.x s2.CenterOfMass.x = false ∨
      floatEqual s1.CenterOfMass.y s2.CenterOfMass.y = false ∨
      floatEqual s1.CenterOfMass.z s2.CenterOfMass.z = false ∨
      floatEqual s1.Area s2.Area = false) :
    isSameGeometry { s1 with tag := t1 } { s2 with tag := t2 } = isSameGeometry s1 s2 ∧
      isSameGeometry s1 s2 = some false ∧ isSameGeometry s2 s1 = some false := by
  refine ⟨rfl, ?_, ?_⟩
  · rw [isSameGeometry_eval s1 s2 hlen hpos]
    rcases hmis with h | h | h | h <;> simp [h]
  · rw [isSameGeometry_eval s2 s1 hlen.symm (hlen ▸ hpos)]
    rcases hmis with h | h | h | h <;>
      [rw [floatEqual_symm s2.CenterOfMass.x s1.CenterOfMass.x];
       rw [floatEqual_symm s2.CenterOfMass.y s1.CenterOfMass.y];
       rw [floatEqual_symm s2.CenterOfMass.z s1.CenterOfMass.z];
       rw [floatEqual_symm s2.Area s1.Area]] <;> simp [h]

theorem isSameGeometry_of_perm (e F : Element)
    (hcom : F.CenterOfMass = e.CenterOfMass) (harea : F.Area = e.Area)
    (hperm : F.Vertexes.Perm e.Vertexes) (hne : e.Vertexes ≠ []) :
    isSameGeometry e F = some true := by
  have hlen : e.Vertexes.length = F.Vertexes.length := hperm.length_eq.symm
  rw [isSameGeometry_eval e F hlen (List.length_pos.mpr hne), hcom, harea]
  simp only [floatEqual_refl, Bool.true_and, Bool.and_true]
  rw [countMatchedVertexes_eq_length
    (fun v hv => ⟨v, hperm.mem_iff.mpr hv, vertexMatch_refl v⟩)]
  simp

theorem scanForSame_hits (st : String) (F : Element) (l : List Element) :
    ∀ (index k : Nat) (hk : k < l.length),
      (∀ j, (hj : j < k) → isSameGeometry (l.get ⟨j, hj.trans hk⟩) F ≠ some true) →
      isSameGeometry (l.get ⟨k, hk⟩) F = some true →
      scanForSame st F l index = some (st ++ toString (index + k + 1)) := by
  induction l with
  | nil =>
    intro index k hk
    exact absurd hk (by simp)
  | cons e rest ih =>
    intro index k hk hmiss hhit
    cases k with
    | zero =>
      unfold scanForSame
      simp only [List.get] at hhit
      rw [hhit]
    | succ k =>
      unfold scanForSame
      have h0 : isSameGeometry e F ≠ some true := hmiss 0 (Nat.succ_pos k)
      have hk2 : k < rest.length := Nat.lt_of_succ_lt_succ hk
      have harith : index + 1 + k + 1 = index + (k + 1) + 1 := by omega
      have hrec : scanForSame st F rest (index + 1) =
          some (st ++ toString (index + 1 + k + 1)) := by
        apply ih (index + 1) k hk2
        · intro j hj
          exact hmiss (j + 1) (Nat.succ_lt_succ hj)
        · exact hhit
      cases he : isSameGeometry e F with
      | none =>
        rw [harith] at hrec
        exact hrec
      | some b =>
        cases b with
        | true => exact absurd he h0
        | false =>
          rw [harith] at hrec
          exact hrec

/-- C6 counterexample: a shape containing the same face twice.  The query
element is the second face with its vertex list rotated, but identify
returns the identifier of the first face, not Face2. -/
theorem findElementInShape_roundtrip_cex :
    rtShape.Faces.get? 1 = some rtFace ∧
      rtQuery.Vertexes.Perm rtFace.Vertexes ∧
      findElementInShape rtShape rtQuery = (some ("Face" ++ toString 1), []) ∧
      ("Face" ++ toString 1 : String) ≠ "Face" ++ toString 2 := by
  refine ⟨by decide, by decide, ?_, by decide⟩
  have h1 : isSameGeometry rtFace rtQuery = some true :=
    isSameGeometry_of_perm rtFace rtQuery rfl rfl (by decide) (by decide)
  have h2 : rtQuery.ShapeType = ShapeType.Face := rfl
  simp only [findElementInShape, h2, shapeTypeName, rtShape, scanForSame, h1]

/-- C6 amended: identify returns the identifier of the first face that
isSameGeometry accepts; in particular, when no earlier face of the shape
is geometrically the same as the query, extracting the k-th face
(1-based) and permuting its vertex list arbitrarily still identifies
Face k. -/
theorem findElementInShape_roundtrip (S : Shape) (F : Element) (k : Nat)
    (hk : k < S.Faces.length)
    (hst : F.ShapeType = ShapeType.Face)
    (hcom : F.CenterOfMass = (S.Faces.get ⟨k, hk⟩).CenterOfMass)
    (harea : F.Area = (S.Faces.get ⟨k, hk⟩).Area)
    (hperm : F.Vertexes.Perm (S.Faces.get ⟨k, hk⟩).Vertexes)
    (hne : (S.Faces.get ⟨k, hk⟩).Vertexes ≠ [])
    (hearlier : ∀ j, (hj : j < k) →
      isSameGeometry (S.Faces.get ⟨j, hj.trans hk⟩) F ≠ some true) :
    findElementInShape S F = (some ("Face" ++ toString (k + 1)), []) := by
  unfold findElementInShape
  rw [hst]
  have hscan := scanForSame_hits (shapeTypeName ShapeType.Face) F S.Faces 0 k hk hearlier
    (isSameGeometry_of_perm _ F hcom harea hperm hne)
  rw [hscan]
  simp [shapeTypeName]

/-- Closed instance of the round-trip theorem: a one-face shape queried
with the face under a rotated vertex list identifies Face 1. -/
theorem findElementInShape_roundtrip_witness :
    findElementInShape rtShape1 rtQuery = (some ("Face" ++ toString 1), []) :=
  findElementInShape_roundtrip rtShape1 rtQuery 0 (by decide) rfl rfl rfl (by decide)
    (by decide) (fun j hj => absurd hj (Nat.not_lt_zero j))

theorem resolveList_error (doc : List (String × Shape))
    (ge : Shape → String → Option Element) (i : Nat) :
    ∀ (rl1 rl2 : List Ref) (br : Ref) (e : String),
      (∀ b ∈ rl1, ∃ el, resolveRef doc ge b = Except.ok el) →
      resolveRef doc ge br = Except.error e →
      resolveList doc ge i (rl1 ++ br :: rl2) = Except.error e := by
  intro rl1
  induction rl1 with
  | nil =>
    intro rl2 br e _ hbr
    simp only [List.nil_append]
    unfold resolveList
    rw [hbr]
  | cons a rl1 ih =>
    intro rl2 br e hok hbr
    simp only [List.cons_append]
    unfold resolveList
    obtain ⟨el, hel⟩ := hok a (List.mem_cons_self a _)
    rw [hel, ih rl2 br e (fun b hb => hok b (List.mem_cons_of_mem a hb)) hbr]

theorem resolveList_ok_exists (doc : List (String × Shape))
    (ge : Shape → String → Option Element) (i : Nat) :
    ∀ (rl : List Ref), (∀ b ∈ rl, ∃ el, resolveRef doc ge b = Except.ok el) →
      ∃ l, resolveList doc ge i rl = Except.ok l := by
  intro rl
  induction rl with
  | nil => exact fun _ => ⟨[], rfl⟩
  | cons a rl ih =>
    intro hok
    obtain ⟨el, hel⟩ := hok a (List.mem_cons_self a _)
    obtain ⟨l, hl⟩ := ih (fun b hb => hok b (List.mem_cons_of_mem a hb))
    refine ⟨(el, i, a) :: l, ?_⟩
    unfold resolveList
    rw [hel, hl]

theorem resolveGroups_error (doc : List (String × Shape))
    (ge : Shape → String → Option Element) :
    ∀ (pre : List (List Ref)) (i : Nat) (rl1 rl2 : List Ref) (br : Ref)
      (post : List (List Ref)) (e : String),
      (∀ rl ∈ pre, ∀ b ∈ rl, ∃ el, resolveRef doc ge b = Except.ok el) →
      (∀ b ∈ rl1, ∃ el, resolveRef doc ge b = Except.ok el) →
      resolveRef doc ge br = Except.error e →
      resolveGroups doc ge i (pre ++ (rl1 ++ br :: rl2) :: post) = Except.error e := by
  intro pre
  induction pre with
  | nil =>
    intro i rl1 rl2 br post e _ h1 hbr
    simp only [List.nil_append]
    unfold resolveGroups
    rw [resolveList_error doc ge i rl1 rl2 br e h1 hbr]
  | cons g pre ih =>
    intro i rl1 rl2 br post e hpre h1 hbr
    simp only [List.cons_append]
    unfold resolveGroups
    obtain ⟨l, hl⟩ := resolveList_ok_exists doc ge i g (hpre g (List.mem_cons_self g _))
    rw [hl, ih (i + 1) rl1 rl2 br post e
      (fun rl hrl => hpre rl (List.mem_cons_of_mem g hrl)) h1 hbr]

/-- C2 counterexample: one dangling reference makes the whole call return
an error; the remaining references of the same and the other group are
not matched (no per-face result is produced at all). -/
theorem matchFaces_unresolved_cex :
    matchFacesToTargetShape oneFaceDoc getElementStd
        [[("A", "Face1"), ("B", "Face1")], [("A", "Face1")]] oneFaceShape =
      Except.error "Referenced object B not found - object may have been deleted" := by
  decide

/-- C2 amended: when a reference fails to resolve (all references before
it in iteration order resolving), matchFacesToTargetShape raises the
error of that specific reference and the entire matching call aborts. -/
theorem matchFaces_unresolved_aborts (doc : List (String × Shape))
    (ge : Shape → String → Option Element) (shape : Shape)
    (pre : List (List Ref)) (rl1 rl2 : List Ref) (br : Ref)
    (post : List (List Ref)) (e : String)
    (hpre : ∀ rl ∈ pre, ∀ b ∈ rl, ∃ el, resolveRef doc ge b = Except.ok el)
    (h1 : ∀ b ∈ rl1, ∃ el, resolveRef doc ge b = Except.ok el)
    (hbr : resolveRef doc ge br = Except.error e) :
    matchFacesToTargetShape doc ge (pre ++ (rl1 ++ br :: rl2) :: post) shape =
      Except.error e := by
  unfold matchFacesToTargetShape
  rw [resolveGroups_error doc ge pre 0 rl1 rl2 br post e hpre h1 hbr]

/-- Closed instance of the abort theorem: a dangling reference in the
middle of the second group aborts the whole call with its error. -/
theorem matchFaces_unresolved_aborts_witness :
    matchFacesToTargetShape oneFaceDoc getElementStd
        [[("A", "Face1")], [("A", "Face1"), ("B", "Face1"), ("A", "Face1")]] oneFaceShape =
      Except.error "Referenced object B not found - object may have been deleted" := by
  refine matchFaces_unresolved_aborts oneFaceDoc getElementStd oneFaceShape
    [[("A", "Face1")]] [("A", "Face1")] [("A", "Face1")] ("B", "Face1") [] _ ?_ ?_ ?_
  · intro rl hrl b hb
    simp only [List.mem_singleton] at hrl
    subst hrl
    simp only [List.mem_singleton] at hb
    subst hb
    exact ⟨idFace1, by decide⟩
  · intro b hb
    simp only [List.mem_singleton] at hb
    subst hb
    exact ⟨idFace1, by decide⟩
  · decide

/-- C4: failing input for candidate-generation completeness.  The second
source entry has a center of mass floatEqual to the single mesh face on
all three axes, yet the sweep records only the candidate of the first
source entry: when a tie run reaches the end of the sorted target list
the loop exits without rescanning the run for the next source entry. -/
theorem sweep_misses_trailing_run :
    floatEqual ((tailRunSrc.getD 1 default).1.CenterOfMass.x)
        ((tailRunMesh.getD 0 default).1.CenterOfMass.x) = true ∧
      floatEqual ((tailRunSrc.getD 1 default).1.CenterOfMass.y)
        ((tailRunMesh.getD 0 default).1.CenterOfMass.y) = true ∧
      floatEqual ((tailRunSrc.getD 1 default).1.CenterOfMass.z)
        ((tailRunMesh.getD 0 default).1.CenterOfMass.z) = true ∧
      sweepAux tailRunSrc tailRunMesh
          ((tailRunSrc.length + 1) * (tailRunMesh.length + 1)) 0 0 0 false
          (List.replicate tailRunMesh.length []) =
        [[(0, 0, ("A", "Face1"))]] := by
  refine ⟨floatEqual_refl 0, floatEqual_refl 0, floatEqual_refl 0, ?_⟩
  simp [sweepAux, tailRunSrc, tailRunMesh, idFace1, floatEqual_refl]

theorem getD_set_self {α : Type} (l : List (List α)) (i : Nat) (v : List α)
    (h : i < l.length) : (l.set i v).getD i [] = v := by
  rw [List.getD_eq_getD_get?, List.get?_eq_getElem?, List.getElem?_set_eq_of_lt v h]
  rfl

theorem getD_set_other {α : Type} (l : List (List α)) (i j : Nat) (v : List α)
    (h : i ≠ j) : (l.set i v).getD j [] = l.getD j [] := by
  rw [List.getD_eq_getD_get?, List.getD_eq_getD_get?, List.get?_eq_getElem?,
    List.get?_eq_getElem?, List.getElem?_set_ne h]

theorem getD_replicate_nil {α : Type} (n j : Nat) :
    (List.replicate n ([] : List α)).getD j [] = [] := by
  rw [List.getD_eq_getD_get?, List.get?_eq_getElem?]
  cases h : (List.replicate n ([] : List α))[j]? with
  | none => rfl
  | some v =>
    have := List.getElem?_mem h
    rw [List.eq_of_mem_replicate this]
    rfl

theorem getD_map_getD {α β : Type} [Inhabited α] [Inhabited β] (g : α → β) (l : List α)
    (j : Nat) (h : j < l.length) : (l.map g).getD j default = g (l.getD j default) := by
  have hj : j < (l.map g).length := by
    rw [List.length_map]
    exact h
  rw [List.getD_eq_get _ _ hj, List.getD_eq_get _ _ h, List.get_map]

theorem pyLe_total (key : α → ℚ) (a b : α) : pyLe key a b ∨ pyLe key b a := by
  unfold pyLe
  by_cases h1 : K_lt (key b) (key a) = false
  · exact Or.inl h1
  · right
    rw [Bool.not_eq_false] at h1
    simp only [K_lt, Bool.and_eq_true, decide_eq_true_eq] at h1
    simp only [K_lt, Bool.and_eq_false_iff, decide_eq_false_iff_not, not_lt]
    exact Or.inl h1.1.le

theorem pyLe_le {key : α → ℚ} {a b : α}
    (hfe : floatEqual (key b) (key a) = true → key b = key a)
    (h : pyLe key a b) : key a ≤ key b := by
  unfold pyLe K_lt at h
  rcases Bool.and_eq_false_iff.mp h with h1 | h1
  · exact not_lt.mp (of_decide_eq_false h1)
  · rw [Bool.not_eq_false'] at h1
    exact (hfe h1).ge

theorem not_pyLe_lt {key : α → ℚ} {a b : α} (h : ¬pyLe key a b) : key b < key a := by
  unfold pyLe at h
  rw [Bool.not_eq_false, K_lt, Bool.and_eq_true, decide_eq_true_eq] at h
  exact h.1

theorem orderedInsert_pairwise_le (key : α → ℚ) (x : α) :
    ∀ l' : List α,
      (∀ y ∈ l', floatEqual (key x) (key y) = true → key x = key y) →
      (∀ y ∈ l', floatEqual (key y) (key x) = true → key y = key x) →
      List.Pairwise (fun a b => key a ≤ key b) l' →
      List.Pairwise (fun a b => key a ≤ key b)
        (List.orderedInsert (pyLe key) x l') := by
  intro l'
  induction l' with
  | nil => intro _ _ _; simp
  | cons y ys ih =>
    intro hxy hyx hp
    rw [List.orderedInsert]
    split
    case isTrue h =>
      have hxy2 : key x ≤ key y := pyLe_le (hyx y (List.mem_cons_self y ys)) h
      refine List.Pairwise.cons ?_ hp
      intro z hz
      rcases List.mem_cons.mp hz with hz | hz
      · rw [hz]
        exact hxy2
      · exact le_trans hxy2 (List.rel_of_pairwise_cons hp hz)
    case isFalse h =>
      have hyx2 : key y ≤ key x := (not_pyLe_lt h).le
      refine List.Pairwise.cons ?_ (ih
        (fun z hz => hxy z (List.mem_cons_of_mem y hz))
        (fun z hz => hyx z (List.mem_cons_of_mem y hz)) hp.of_cons)
      intro z hz
      rcases (List.mem_orderedInsert (pyLe key)).mp hz with hz | hz
      · rw [hz]
        exact hyx2
      · exact List.rel_of_pairwise_cons hp hz

theorem insertionSort_pairwise_le (key : α → ℚ) :
    ∀ l : List α,
      (∀ a ∈ l, ∀ b ∈ l, floatEqual (key a) (key b) = true → key a = key b) →
      List.Pairwise (fun a b => key a ≤ key b)
        (List.insertionSort (pyLe key) l) := by
  intro l
  induction l with
  | nil => intro _; simp
  | cons x xs ih =>
    intro hfe
    rw [List.insertionSort]
    apply orderedInsert_pairwise_le
    · intro y hy
      exact hfe x (List.mem_cons_self x xs) y
        (List.mem_cons_of_mem x ((List.mem_insertionSort _).mp hy))
    · intro y hy
      exact hfe y (List.mem_cons_of_mem x ((List.mem_insertionSort _).mp hy)) x
        (List.mem_cons_self x xs)
    · exact ih (fun a ha b hb =>
        hfe a (List.mem_cons_of_mem x ha) b (List.mem_cons_of_mem x hb))

theorem sweepAux_stop (src : List SrcEntry) (mesh : List MeshEntry)
    (fuel i j jms : Nat) (matching : Bool) (acc : List (List Cand))
    (h : ¬(i < src.length ∧ j < mesh.length)) :
    sweepAux src mesh (fuel + 1) i j jms matching acc = acc := by
  simp only [sweepAux]
  rw [dif_neg h]

theorem sweepAux_eq_step (src : List SrcEntry) (mesh : List MeshEntry)
    (fuel i j jms : Nat) (matching : Bool) (acc : List (List Cand))
    (h1 : i < src.length) (h2 : j < mesh.length)
    (hfx : floatEqual (src.get ⟨i, h1⟩).1.CenterOfMass.x
      (mesh.get ⟨j, h2⟩).1.CenterOfMass.x = true)
    (hfy : floatEqual (src.get ⟨i, h1⟩).1.CenterOfMass.y
      (mesh.get ⟨j, h2⟩).1.CenterOfMass.y = true)
    (hfz : floatEqual (src.get ⟨i, h1⟩).1.CenterOfMass.z
      (mesh.get ⟨j, h2⟩).1.CenterOfMass.z = true) :
    sweepAux src mesh (fuel + 1) i j jms matching acc =
      sweepAux src mesh fuel i (j + 1) (if matching then jms else j) true
        (acc.set j (acc.getD j [] ++
          [(i, (src.get ⟨i, h1⟩).2.1, (src.get ⟨i, h1⟩).2.2)])) := by
  simp only [sweepAux]
  rw [dif_pos ⟨h1, h2⟩]
  simp only [hfx, hfy, hfz, if_true]

theorem sweepAux_lt_x_step (src : List SrcEntry) (mesh : List MeshEntry)
    (fuel i j jms : Nat) (matching : Bool) (acc : List (List Cand))
    (h1 : i < src.length) (h2 : j < mesh.length)
    (hfx : floatEqual (src.get ⟨i, h1⟩).1.CenterOfMass.x
      (mesh.get ⟨j, h2⟩).1.CenterOfMass.x = false)
    (hlt : (src.get ⟨i, h1⟩).1.CenterOfMass.x < (mesh.get ⟨j, h2⟩).1.CenterOfMass.x) :
    sweepAux src mesh (fuel + 1) i j jms matching acc =
      sweepAux src mesh fuel (i + 1) (if matching then jms else j) jms false acc := by
  simp only [sweepAux]
  rw [dif_pos ⟨h1, h2⟩]
  simp only [hfx, Bool.false_eq_true, if_false, if_pos hlt]

theorem sweepAux_gt_x_step (src : List SrcEntry) (mesh : List MeshEntry)
    (fuel i j jms : Nat) (matching : Bool) (acc : List (List Cand))
    (h1 : i < src.length) (h2 : j < mesh.length)
    (hfx : floatEqual (src.get ⟨i, h1⟩).1.CenterOfMass.x
      (mesh.get ⟨j, h2⟩).1.CenterOfMass.x = false)
    (hlt : ¬((src.get ⟨i, h1⟩).1.CenterOfMass.x < (mesh.get ⟨j, h2⟩).1.CenterOfMass.x)) :
    sweepAux src mesh (fuel + 1) i j jms matching acc =
      sweepAux src mesh fuel i (j + 1) jms false acc := by
  simp only [sweepAux]
  rw [dif_pos ⟨h1, h2⟩]
  simp only [hfx, Bool.false_eq_true, if_false, if_neg hlt]

theorem sweep_aligned (src : List SrcEntry) (mesh : List MeshEntry) (n : Nat)
    (hsl : src.length = n) (hml : mesh.length = n)
    (halign : ∀ k, k < n → (src.getD k default).1 = (mesh.getD k default).1)
    (hstrict : ∀ p q, p < n → q < n → p < q →
      (mesh.getD p default).1.CenterOfMass.x <
          (mesh.getD q default).1.CenterOfMass.x ∧
        floatEqual (mesh.getD p default).1.CenterOfMass.x
          (mesh.getD q default).1.CenterOfMass.x = false) :
    ∀ (d k fuel jms : Nat) (acc : List (List Cand)),
      n - k = d → k ≤ n → 3 * d + 1 ≤ fuel → acc.length = n →
      (∀ j, j < k → acc.getD j [] =
        [(j, (src.getD j default).2.1, (src.getD j default).2.2)]) →
      (∀ j, k ≤ j → j < n → acc.getD j [] = []) →
      (sweepAux src mesh fuel k k jms false acc).length = n ∧
        ∀ j, j < n → (sweepAux src mesh fuel k k jms false acc).getD j [] =
          [(j, (src.getD j default).2.1, (src.getD j default).2.2)] := by
  intro d
  induction d with
  | zero =>
    intro k fuel jms acc hd hk hfuel hlen hlow _hhigh
    have hkn : k = n := by omega
    subst hkn
    obtain ⟨f1, rfl⟩ : ∃ f1, fuel = f1 + 1 := ⟨fuel - 1, by omega⟩
    rw [sweepAux_stop src mesh f1 k k jms false acc (by omega)]
    exact ⟨hlen, fun j hj => hlow j (by omega)⟩
  | succ d ih =>
    intro k fuel jms acc hd hk hfuel hlen hlow hhigh
    have hklt : k < n := by omega
    have hks : k < src.length := by omega
    have hkm : k < mesh.length := by omega
    have hget_s : src.get ⟨k, hks⟩ = src.getD k default :=
      (List.getD_eq_get src default hks).symm
    have hget_m : mesh.get ⟨k, hkm⟩ = mesh.getD k default :=
      (List.getD_eq_get mesh default hkm).symm
    have helem : (src.get ⟨k, hks⟩).1 = (mesh.get ⟨k, hkm⟩).1 := by
      rw [hget_s, hget_m]
      exact halign k hklt
    obtain ⟨f1, rfl⟩ : ∃ f1, fuel = f1 + 1 := ⟨fuel - 1, by omega⟩
    rw [sweepAux_eq_step src mesh f1 k k jms false acc hks hkm
      (by rw [helem]; exact floatEqual_refl _)
      (by rw [helem]; exact floatEqual_refl _)
      (by rw [helem]; exact floatEqual_refl _)]
    simp only [Bool.false_eq_true, if_false]
    have hacck : acc.getD k [] = [] := hhigh k (Nat.le_refl k) hklt
    rw [hacck, List.nil_append, hget_s]
    set acc2 := acc.set k [(k, (src.getD k default).2.1, (src.getD k default).2.2)]
      with hacc2
    have hlen2 : acc2.length = n := by
      rw [hacc2, List.length_set]
      exact hlen
    have hlow2 : ∀ j, j < k + 1 → acc2.getD j [] =
        [(j, (src.getD j default).2.1, (src.getD j default).2.2)] := by
      intro j hj
      by_cases hjk : j = k
      · subst hjk
        rw [hacc2, getD_set_self acc j _ (by omega)]
      · rw [hacc2, getD_set_other acc k j _ (fun h => hjk h.symm)]
        exact hlow j (by omega)
    have hhigh2 : ∀ j, k + 1 ≤ j → j < n → acc2.getD j [] = [] := by
      intro j hj1 hj2
      rw [hacc2, getD_set_other acc k j _ (by omega)]
      exact hhigh j (by omega) hj2
    by_cases hk1 : k + 1 = n
    · obtain ⟨f2, rfl⟩ : ∃ f2, f1 = f2 + 1 := ⟨f1 - 1, by omega⟩
      rw [sweepAux_stop src mesh f2 k (k + 1) k true acc2 (by omega)]
      refine ⟨hlen2, fun j hj => hlow2 j (by omega)⟩
    · have hk1n : k + 1 < n := by omega
      have hk1m : k + 1 < mesh.length := by omega
      have hk1s : k + 1 < src.length := by omega
      have hget_m1 : mesh.get ⟨k + 1, hk1m⟩ = mesh.getD (k + 1) default :=
        (List.getD_eq_get mesh default hk1m).symm
      have hget_s1 : src.get ⟨k + 1, hk1s⟩ = src.getD (k + 1) default :=
        (List.getD_eq_get src default hk1s).symm
      obtain ⟨hstep_lt, hstep_fe⟩ := hstrict k (k + 1) hklt hk1n (Nat.lt_succ_self k)
      obtain ⟨f2, rfl⟩ : ∃ f2, f1 = f2 + 1 := ⟨f1 - 1, by omega⟩
      rw [sweepAux_lt_x_step src mesh f2 k (k + 1) k true acc2 hks hk1m
        (by rw [hget_s, hget_m1, halign k hklt]; exact hstep_fe)
        (by rw [hget_s, hget_m1, halign k hklt]; exact hstep_lt)]
      simp only [if_true]
      obtain ⟨f3, rfl⟩ : ∃ f3, f2 = f3 + 1 := ⟨f2 - 1, by omega⟩
      rw [sweepAux_gt_x_step src mesh f3 (k + 1) k k false acc2 hk1s hkm
        (by
          rw [hget_s1, hget_m, halign (k + 1) hk1n, floatEqual_symm]
          exact hstep_fe)
        (by
          rw [hget_s1, hget_m, halign (k + 1) hk1n]
          exact not_lt.mpr hstep_lt.le)]
      exact ih (k + 1) f3 k acc2 (by omega) (by omega) (by omega) hlen2 hlow2 hhigh2

theorem resolveList_pointwise (doc : List (String × Shape))
    (ge : Shape → String → Option Element) (i : Nat) :
    ∀ (refs : List Ref) (faces : List Element), refs.length = faces.length →
      (∀ k, k < refs.length →
        resolveRef doc ge (refs.getD k ("", "")) = Except.ok (faces.getD k default)) →
      resolveList doc ge i refs =
        Except.ok (List.zipWith (fun f br => (f, i, br)) faces refs) := by
  intro refs
  induction refs with
  | nil =>
    intro faces hl _
    cases faces with
    | nil => rfl
    | cons f ftl => simp at hl
  | cons br rtl ih =>
    intro faces hl hres
    cases faces with
    | nil => simp at hl
    | cons f ftl =>
      have h0 := hres 0 (by simp)
      simp only [List.getD_cons_zero] at h0
      unfold resolveList
      rw [h0, ih ftl (by simpa using hl) (fun k hk => by
        have hk1 := hres (k + 1) (by simpa using Nat.succ_lt_succ hk)
        simpa using hk1)]
      rfl

theorem zipWith_eq_map_zip (faces : List Element) (refs : List Ref)
    (hlen : refs.length = faces.length) :
    List.zipWith (fun f br => (f, 0, br)) faces refs =
      (faces.zip (List.range faces.length)).map
        (fun p => (p.1, 0, refs.getD p.2 ("", ""))) := by
  apply List.ext_getElem
  · simp [hlen]
  · intro m h1 h2
    simp only [List.getElem_zipWith, List.getElem_map, List.getElem_zip,
      List.getElem_range]
    have hm : m < refs.length := by
      simp [hlen] at h1 ⊢
      omega
    rw [List.getD_eq_getElem refs ("", "") hm]

theorem sortEntries3_map_mesh (mesh : List MeshEntry) (refs : List Ref) :
    sortEntries3 (mesh.map (fun p => (p.1, 0, refs.getD p.2 ("", "")))) =
      (sortMesh3 mesh).map (fun p => (p.1, 0, refs.getD p.2 ("", ""))) := by
  unfold sortEntries3 sortMesh3 pySortByKey
  have hz := List.map_insertionSort
    (pyLe (fun mf : MeshEntry => mf.1.CenterOfMass.z))
    (pyLe (fun bf : SrcEntry => bf.1.CenterOfMass.z))
    (fun p : MeshEntry => (p.1, 0, refs.getD p.2 ("", ""))) mesh
    (fun _ _ _ _ => Iff.rfl)
  have hy := List.map_insertionSort
    (pyLe (fun mf : MeshEntry => mf.1.CenterOfMass.y))
    (pyLe (fun bf : SrcEntry => bf.1.CenterOfMass.y))
    (fun p : MeshEntry => (p.1, 0, refs.getD p.2 ("", "")))
    (List.insertionSort (pyLe (fun mf : MeshEntry => mf.1.CenterOfMass.z)) mesh)
    (fun _ _ _ _ => Iff.rfl)
  have hx := List.map_insertionSort
    (pyLe (fun mf : MeshEntry => mf.1.CenterOfMass.x))
    (pyLe (fun bf : SrcEntry => bf.1.CenterOfMass.x))
    (fun p : MeshEntry => (p.1, 0, refs.getD p.2 ("", "")))
    (List.insertionSort (pyLe (fun mf : MeshEntry => mf.1.CenterOfMass.y))
      (List.insertionSort (pyLe (fun mf : MeshEntry => mf.1.CenterOfMass.z)) mesh))
    (fun _ _ _ _ => Iff.rfl)
  rw [← hz, ← hy, ← hx]

theorem mem_zipRange {faces : List Element} {p : MeshEntry}
    (hp : p ∈ faces.zip (List.range faces.length)) :
    ∃ h : p.2 < faces.length, p.1 = faces.get ⟨p.2, h⟩ := by
  obtain ⟨i, hi, hget⟩ := List.mem_iff_getElem.mp hp
  have hif : i < faces.length := by
    simp at hi
    omega
  rw [List.getElem_zip, List.getElem_range] at hget
  have hp2 : p.2 = i := by rw [← hget]
  have hp1 : p.1 = faces[i] := by rw [← hget]
  subst hp2
  exact ⟨hif, by rw [hp1]; exact (List.get_eq_getElem faces ⟨p.2, hif⟩).symm⟩

theorem zipRange_nodup (faces : List Element) :
    (faces.zip (List.range faces.length)).Nodup := by
  have hmap : ((faces.zip (List.range faces.length)).map Prod.snd) =
      List.range faces.length :=
    List.map_snd_zip faces (List.range faces.length) (by simp)
  have : ((faces.zip (List.range faces.length)).map Prod.snd).Nodup := by
    rw [hmap]
    exact List.nodup_range faces.length
  exact List.Nodup.of_map Prod.snd this

theorem verifyCandidates_scatter (srcS : List SrcEntry) (vf : Nat → Nat × Ref) :
    ∀ (pairs : List (List Cand × MeshEntry)) (acc : List (List (Nat × Ref))),
      (∀ q ∈ pairs, ∀ acc2 : List (List (Nat × Ref)),
        q.1.foldl (fun acc2 c =>
          match isSameGeometry (srcS.getD c.1 default).1 q.2.1 with
          | some true => acc2.set q.2.2 (acc2.getD q.2.2 [] ++ [(c.2.1, c.2.2)])
          | _ => acc2) acc2 =
          acc2.set q.2.2 (acc2.getD q.2.2 [] ++ [vf q.2.2])) →
      (∀ q ∈ pairs, q.2.2 < acc.length) →
      (pairs.map (fun q => q.2.2)).Nodup →
      (verifyCandidates srcS pairs acc).length = acc.length ∧
        (∀ m, m ∉ pairs.map (fun q => q.2.2) →
          (verifyCandidates srcS pairs acc).getD m [] = acc.getD m []) ∧
        (∀ q ∈ pairs, (verifyCandidates srcS pairs acc).getD q.2.2 [] =
          acc.getD q.2.2 [] ++ [vf q.2.2]) := by
  intro pairs
  induction pairs with
  | nil =>
    intro acc _ _ _
    exact ⟨rfl, fun m _ => rfl, fun q hq => absurd hq (List.not_mem_nil q)⟩
  | cons q rest ih =>
    intro acc hstep hbound hnd
    have hunfold : verifyCandidates srcS (q :: rest) acc =
        verifyCandidates srcS rest (acc.set q.2.2 (acc.getD q.2.2 [] ++ [vf q.2.2])) := by
      unfold verifyCandidates
      rw [List.foldl_cons, hstep q (List.mem_cons_self q rest) acc]
    simp only [List.map_cons, List.nodup_cons] at hnd
    obtain ⟨hq_notin, hnd_rest⟩ := hnd
    have hqb := hbound q (List.mem_cons_self q rest)
    have hlen2 : (acc.set q.2.2 (acc.getD q.2.2 [] ++ [vf q.2.2])).length = acc.length :=
      List.length_set acc _ _
    obtain ⟨ihlen, ihun, ihq⟩ := ih (acc.set q.2.2 (acc.getD q.2.2 [] ++ [vf q.2.2]))
      (fun q' hq' acc3 => hstep q' (List.mem_cons_of_mem q hq') acc3)
      (fun q' hq' => by rw [hlen2]; exact hbound q' (List.mem_cons_of_mem q hq'))
      hnd_rest
    rw [hunfold]
    refine ⟨by rw [ihlen, hlen2], ?_, ?_⟩
    · intro m hm
      simp only [List.map_cons, List.mem_cons, not_or] at hm
      rw [ihun m hm.2, getD_set_other acc q.2.2 m _ (fun h => hm.1 h.symm)]
    · intro q' hq'
      rcases List.mem_cons.mp hq' with rfl | hq'
      · rw [ihun q'.2.2 hq_notin, getD_set_self acc q'.2.2 _ hqb]
      · rw [ihq q' hq', getD_set_other acc q.2.2 q'.2.2 _
          (fun h => hq_notin (h ▸ List.mem_map_of_mem (fun r => r.2.2) hq'))]

theorem sortMesh3_perm (l : List MeshEntry) : (sortMesh3 l).Perm l := by
  unfold sortMesh3 pySortByKey
  exact ((List.perm_insertionSort _ _).trans
    (List.perm_insertionSort _ _)).trans (List.perm_insertionSort _ _)

theorem sortMesh3_pairwise_le (l : List MeshEntry)
    (hfe : ∀ a ∈ l, ∀ b ∈ l, a ≠ b →
      floatEqual a.1.CenterOfMass.x b.1.CenterOfMass.x = false) :
    List.Pairwise (fun a b : MeshEntry =>
      a.1.CenterOfMass.x ≤ b.1.CenterOfMass.x) (sortMesh3 l) := by
  unfold sortMesh3 pySortByKey
  apply insertionSort_pairwise_le (fun mf : MeshEntry => mf.1.CenterOfMass.x)
  intro a ha b hb hab
  have hmem : ∀ c : MeshEntry,
      c ∈ List.insertionSort (pyLe fun mf : MeshEntry => mf.1.CenterOfMass.y)
        (List.insertionSort (pyLe fun mf : MeshEntry => mf.1.CenterOfMass.z) l) →
      c ∈ l := by
    intro c hc
    rw [List.mem_insertionSort, List.mem_insertionSort] at hc
    exact hc
  by_cases heq : a = b
  · rw [heq]
  · rw [hfe a (hmem a ha) b (hmem b hb) heq] at hab
    exact absurd hab (by simp)

theorem sortMesh3_strict (l : List MeshEntry)
    (hnd : l.Nodup)
    (hfe : ∀ a ∈ l, ∀ b ∈ l, a ≠ b →
      floatEqual a.1.CenterOfMass.x b.1.CenterOfMass.x = false) :
    List.Pairwise (fun a b : MeshEntry =>
      a.1.CenterOfMass.x < b.1.CenterOfMass.x ∧
        floatEqual a.1.CenterOfMass.x b.1.CenterOfMass.x = false) (sortMesh3 l) := by
  have hle := sortMesh3_pairwise_le l hfe
  have hnds : (sortMesh3 l).Nodup := ((sortMesh3_perm l).nodup_iff).mpr hnd
  have hand := List.Pairwise.and hle hnds
  refine hand.imp_of_mem ?_
  intro a b ha hb hab
  obtain ⟨hle2, hne⟩ := hab
  have hmem : ∀ c ∈ sortMesh3 l, c ∈ l := fun c hc => ((sortMesh3_perm l).mem_iff).mp hc
  have hfe2 := hfe a (hmem a ha) b (hmem b hb) hne
  exact ⟨lt_of_le_of_ne hle2 (floatEqual_ne_of_false hfe2), hfe2⟩

theorem isSameGeometry_refl (e : Element) (hne : e.Vertexes ≠ []) :
    isSameGeometry e e = some true :=
  isSameGeometry_of_perm e e rfl rfl (List.Perm.refl _) hne

theorem singleton_fold_step (srcS : List SrcEntry) (me : MeshEntry) (j : Nat) (r : Ref)
    (hsame : isSameGeometry (srcS.getD j default).1 me.1 = some true)
    (acc2 : List (List (Nat × Ref))) :
    ([(j, (0 : Nat), r)] : List Cand).foldl (fun acc2 c =>
      match isSameGeometry (srcS.getD c.1 default).1 me.1 with
      | some true => acc2.set me.2 (acc2.getD me.2 [] ++ [(c.2.1, c.2.2)])
      | _ => acc2) acc2 = acc2.set me.2 (acc2.getD me.2 [] ++ [((0 : Nat), r)]) := by
  rw [List.foldl_cons, List.foldl_nil]
  simp only [hsame]

theorem mesh0_fe_false (S : Shape)
    (hsep : ∀ k l, (hk : k < S.Faces.length) → (hl : l < S.Faces.length) → k ≠ l →
      floatEqual (S.Faces.get ⟨k, hk⟩).CenterOfMass.x
        (S.Faces.get ⟨l, hl⟩).CenterOfMass.x = false) :
    ∀ a ∈ S.Faces.zip (List.range S.Faces.length),
      ∀ b ∈ S.Faces.zip (List.range S.Faces.length), a ≠ b →
        floatEqual a.1.CenterOfMass.x b.1.CenterOfMass.x = false := by
  intro a ha b hb hne
  obtain ⟨ha2, ha1⟩ := mem_zipRange ha
  obtain ⟨hb2, hb1⟩ := mem_zipRange hb
  have hab : a.2 ≠ b.2 := by
    intro h
    apply hne
    apply Prod.ext
    · rw [ha1, hb1]
      exact congrArg S.Faces.get (Fin.mk_eq_mk.mpr h)
    · exact h
  rw [ha1, hb1]
  exact hsep a.2 b.2 ha2 hb2 hab

/-- C1 amended: the identity case of matchFacesToTargetShape.  When the
single reference group resolves, in order, to exactly the faces of the
target shape, every face has at least one vertex, and the face centers of
mass are pairwise distinguishable (not floatEqual) in the x coordinate,
then every face index k receives exactly the one pair (0, reference to
face k): no entry is empty, has extra pairs, or refers to another
face. -/
theorem matchFaces_identity (S : Shape) (doc : List (String × Shape))
    (ge : Shape → String → Option Element) (refs : List Ref)
    (hfpos : 0 < S.Faces.length)
    (hlen : refs.length = S.Faces.length)
    (hres : ∀ k, k < refs.length →
      resolveRef doc ge (refs.getD k ("", "")) = Except.ok (S.Faces.getD k default))
    (hnv : ∀ f ∈ S.Faces, f.Vertexes ≠ [])
    (hsep : ∀ k l, (hk : k < S.Faces.length) → (hl : l < S.Faces.length) → k ≠ l →
      floatEqual (S.Faces.get ⟨k, hk⟩).CenterOfMass.x
        (S.Faces.get ⟨l, hl⟩).CenterOfMass.x = false) :
    matchFacesToTargetShape doc ge [refs] S =
      Except.ok ((List.range S.Faces.length).map
        (fun k => [(0, refs.getD k ("", ""))])) := by
  have hsrc0 := resolveList_pointwise doc ge 0 refs S.Faces hlen hres
  have hgroups : resolveGroups doc ge 0 [refs] =
      Except.ok ((S.Faces.zip (List.range S.Faces.length)).map
        (fun p => (p.1, 0, refs.getD p.2 ("", "")))) := by
    unfold resolveGroups
    rw [hsrc0]
    show Except.ok (List.zipWith (fun f br => (f, 0, br)) S.Faces refs ++ []) = _
    rw [List.append_nil, zipWith_eq_map_zip S.Faces refs hlen]
  unfold matchFacesToTargetShape
  rw [hgroups]
  apply congrArg Except.ok
  have hcore : matchFacesCore
      ((S.Faces.zip (List.range S.Faces.length)).map
        (fun p => (p.1, 0, refs.getD p.2 ("", "")))) S =
      verifyCandidates
        ((sortMesh3 (S.Faces.zip (List.range S.Faces.length))).map
          (fun p => (p.1, 0, refs.getD p.2 ("", ""))))
        ((sweepAux
          ((sortMesh3 (S.Faces.zip (List.range S.Faces.length))).map
            (fun p => (p.1, 0, refs.getD p.2 ("", ""))))
          (sortMesh3 (S.Faces.zip (List.range S.Faces.length)))
          ((((sortMesh3 (S.Faces.zip (List.range S.Faces.length))).map
              (fun p => (p.1, 0, refs.getD p.2 ("", "")))).length + 1) *
            ((sortMesh3 (S.Faces.zip (List.range S.Faces.length))).length + 1))
          0 0 0 false
          (List.replicate (sortMesh3 (S.Faces.zip (List.range S.Faces.length))).length
            [])).zip (sortMesh3 (S.Faces.zip (List.range S.Faces.length))))
        (List.replicate (sortMesh3 (S.Faces.zip (List.range S.Faces.length))).length
          []) := by
    unfold matchFacesCore
    rw [sortEntries3_map_mesh]
  rw [hcore]
  set n := S.Faces.length with hn
  set mesh0 := S.Faces.zip (List.range n) with hmesh0
  set msorted := sortMesh3 mesh0 with hmsorted
  set g : MeshEntry → SrcEntry := fun p => (p.1, 0, refs.getD p.2 ("", "")) with hg
  have hm0len : mesh0.length = n := by
    rw [hmesh0]
    simp
  have hmsl : msorted.length = n := by
    rw [hmsorted, (sortMesh3_perm mesh0).length_eq, hm0len]
  have hssl : (msorted.map g).length = n := by
    rw [List.length_map, hmsl]
  have hmem_ms : ∀ c ∈ msorted, c ∈ mesh0 :=
    fun c hc => ((sortMesh3_perm mesh0).mem_iff).mp hc
  have halign : ∀ k, k < n →
      ((msorted.map g).getD k default).1 = (msorted.getD k default).1 := by
    intro k hk
    rw [getD_map_getD g msorted k (by omega)]
  have hstrictP : List.Pairwise (fun a b : MeshEntry =>
      a.1.CenterOfMass.x < b.1.CenterOfMass.x ∧
        floatEqual a.1.CenterOfMass.x b.1.CenterOfMass.x = false) msorted := by
    rw [hmsorted]
    exact sortMesh3_strict mesh0 (zipRange_nodup S.Faces) (mesh0_fe_false S hsep)
  have hstrictIdx : ∀ p q, p < n → q < n → p < q →
      (msorted.getD p default).1.CenterOfMass.x <
          (msorted.getD q default).1.CenterOfMass.x ∧
        floatEqual (msorted.getD p default).1.CenterOfMass.x
          (msorted.getD q default).1.CenterOfMass.x = false := by
    intro p q hp hq hpq
    have hp2 : p < msorted.length := by omega
    have hq2 : q < msorted.length := by omega
    have hpq2 := (List.pairwise_iff_get.mp hstrictP) ⟨p, hp2⟩ ⟨q, hq2⟩
      (Fin.mk_lt_mk.mpr hpq)
    rw [List.getD_eq_get msorted default hp2, List.getD_eq_get msorted default hq2]
    exact hpq2
  have hfuel : 3 * n + 1 ≤ ((msorted.map g).length + 1) * (msorted.length + 1) := by
    have hnn : n ≤ n * n := Nat.le_mul_of_pos_left n hfpos
    have h3 : ((msorted.map g).length + 1) * (msorted.length + 1) =
        n * n + (2 * n + 1) := by
      rw [hssl, hmsl]
      ring
    rw [h3]
    calc 3 * n + 1 = n + (2 * n + 1) := by ring
      _ ≤ n * n + (2 * n + 1) := Nat.add_le_add_right hnn _
  obtain ⟨hclen, hcget⟩ := sweep_aligned (msorted.map g) msorted n hssl hmsl halign
    hstrictIdx n 0 (((msorted.map g).length + 1) * (msorted.length + 1)) 0
    (List.replicate msorted.length []) (by omega) (by omega) hfuel
    (by rw [List.length_replicate, hmsl])
    (fun j hj => absurd hj (Nat.not_lt_zero j))
    (fun j _ _ => getD_replicate_nil msorted.length j)
  set cands := sweepAux (msorted.map g) msorted
    (((msorted.map g).length + 1) * (msorted.length + 1)) 0 0 0 false
    (List.replicate msorted.length []) with hcands
  have hmapsnd : (cands.zip msorted).map (fun q => q.2.2) = msorted.map Prod.snd := by
    rw [show (fun q : List Cand × MeshEntry => q.2.2) =
        (Prod.snd ∘ Prod.snd) from rfl, ← List.map_map]
    rw [List.map_snd_zip cands msorted (by rw [hclen, hmsl])]
  have hsndperm : List.Perm (msorted.map Prod.snd) (List.range n) := by
    have h1 : mesh0.map Prod.snd = List.range n :=
      List.map_snd_zip S.Faces (List.range n) (by simp)
    have h2 := (sortMesh3_perm mesh0).map Prod.snd
    rw [h1] at h2
    exact h2
  have hnd : ((cands.zip msorted).map (fun q => q.2.2)).Nodup := by
    rw [hmapsnd]
    exact hsndperm.nodup_iff.mpr (List.nodup_range n)
  have hziplen : (cands.zip msorted).length = n := by
    rw [List.length_zip, hclen, hmsl, Nat.min_self]
  have hstep : ∀ q ∈ cands.zip msorted, ∀ acc2 : List (List (Nat × Ref)),
      q.1.foldl (fun acc2 c =>
        match isSameGeometry (((msorted.map g).getD c.1 default)).1 q.2.1 with
        | some true => acc2.set q.2.2 (acc2.getD q.2.2 [] ++ [(c.2.1, c.2.2)])
        | _ => acc2) acc2 =
        acc2.set q.2.2 (acc2.getD q.2.2 [] ++ [(0, refs.getD q.2.2 ("", ""))]) := by
    intro q hq acc2
    obtain ⟨j, hjlt, hjq⟩ := List.mem_iff_getElem.mp hq
    have hjn : j < n := by rw [hziplen] at hjlt; exact hjlt
    have hjc : j < cands.length := by omega
    have hjm : j < msorted.length := by omega
    have hzj : (cands.zip msorted)[j] = (cands[j], msorted[j]) := by
      rw [List.getElem_zip]
    rw [hzj] at hjq
    have hq1 : q.1 = cands[j] := by rw [← hjq]
    have hq2 : q.2 = msorted[j] := by rw [← hjq]
    have hmsj : msorted.getD j default = q.2 := by
      rw [List.getD_eq_getElem msorted default hjm, hq2]
    have hcj : cands[j] = [(j, (0 : Nat), refs.getD q.2.2 ("", ""))] := by
      rw [← List.getD_eq_getElem cands [] hjc, hcget j hjn,
        getD_map_getD g msorted j hjm, hmsj]
    have hq2mem : q.2 ∈ mesh0 := hmem_ms q.2 (by rw [hq2]; exact List.getElem_mem hjm)
    obtain ⟨hq2lt, hq2get⟩ := mem_zipRange hq2mem
    have hnonempty : q.2.1.Vertexes ≠ [] := by
      rw [hq2get]
      exact hnv _ (S.Faces.get_mem _ _)
    have hsame : isSameGeometry (((msorted.map g).getD j default)).1 q.2.1 = some true := by
      rw [getD_map_getD g msorted j hjm, hmsj]
      exact isSameGeometry_refl q.2.1 hnonempty
    rw [hq1, hcj]
    exact singleton_fold_step (msorted.map g) q.2 j (refs.getD q.2.2 ("", "")) hsame acc2
  have hbound : ∀ q ∈ cands.zip msorted, q.2.2 < (List.replicate msorted.length
      ([] : List (Nat × Ref))).length := by
    intro q hq
    have hq2mem : q.2 ∈ mesh0 := hmem_ms q.2 (List.mem_zip hq).2
    obtain ⟨hq2lt, _⟩ := mem_zipRange hq2mem
    rw [List.length_replicate, hmsl]
    exact hq2lt
  obtain ⟨hvlen, hvun, hvq⟩ := verifyCandidates_scatter (msorted.map g)
    (fun m => (0, refs.getD m ("", ""))) (cands.zip msorted)
    (List.replicate msorted.length []) hstep hbound hnd
  apply List.ext_getElem
  · rw [hvlen, List.length_replicate, hmsl, List.length_map, List.length_range]
  · intro m h1 h2
    have hmn : m < n := by
      rw [List.length_map, List.length_range] at h2
      exact h2
    have hmmem : m ∈ (cands.zip msorted).map (fun q => q.2.2) := by
      rw [hmapsnd]
      exact (hsndperm.mem_iff).mpr (List.mem_range.mpr hmn)
    obtain ⟨q, hqmem, hq22⟩ := List.mem_map.mp hmmem
    have hval := hvq q hqmem
    rw [hq22, getD_replicate_nil, List.nil_append] at hval
    rw [List.getElem_map, List.getElem_range, ← List.getD_eq_getElem _ [] h1, hval]

/-- Closed instance of the identity-case theorem: a shape with two
x-separated faces, referenced in order by one group, yields exactly the
self-match for each face. -/
theorem matchFaces_identity_witness :
    matchFacesToTargetShape wDoc getElementStd [[("S", "Face1"), ("S", "Face2")]]
        wShape =
      Except.ok ((List.range wShape.Faces.length).map
        (fun k => [(0, ([("S", "Face1"), ("S", "Face2")] : List Ref).getD k ("", ""))])) := by
  apply matchFaces_identity wShape wDoc getElementStd [("S", "Face1"), ("S", "Face2")]
  · decide
  · decide
  · decide
  · decide
  · intro k l hk hl hne
    have h2 : wShape.Faces.length = 2 := rfl
    rw [h2] at hk hl
    interval_cases k <;> interval_cases l
    · exact absurd rfl hne
    · exact fe_zero_one
    · exact fe_one_zero
    · exact absurd rfl hne

/-- C1 counterexample: the identity case fails when two faces of the
target shape share a center of mass.  The single group resolves to
exactly the two faces of idShape, yet face index 1 receives no pair at
all (its tie run reaches the end of the sorted target list, so its own
reference is never recorded as a candidate, and the candidate it did
receive fails the area check). -/
theorem matchFaces_identity_cex :
    matchFacesToTargetShape idDoc getElementStd [[("S", "Face1"), ("S", "Face2")]]
        idShape = Except.ok [[(0, ("S", "Face1"))], []] := by
  have hres : resolveGroups idDoc getElementStd 0 [[("S", "Face1"), ("S", "Face2")]] =
      Except.ok [(idFace1, 0, ("S", "Face1")), (idFace2, 0, ("S", "Face2"))] := by
    decide
  unfold matchFacesToTargetShape
  rw [hres]
  have hcore : matchFacesCore [(idFace1, 0, ("S", "Face1")), (idFace2, 0, ("S", "Face2"))]
      idShape = [[(0, ("S", "Face1"))], []] := by
    unfold matchFacesCore sortEntries3 sortMesh3
    simp [pySortByKey, List.insertionSort, List.orderedInsert, pyLe, K_lt_zero_zero,
      idShape, idFace1, idFace2, sweepAux, verifyCandidates, isSameGeometry,
      countMatchedVertexes, List.countP_cons, List.countP_nil, vertexMatch,
      floatEqual_refl, fe_one_two, fe_one_zero, fe_zero_one, List.range_succ]
  exact congrArg Except.ok hcore

/-- Closed instance of the geometry-only theorem at concrete elements
with an area mismatch and fresh tags. -/
theorem isSameGeometry_geometry_only_witness :
    isSameGeometry { idFace1 with tag := "p" } { idFace2 with tag := "q" } =
        isSameGeometry idFace1 idFace2 ∧
      isSameGeometry idFace1 idFace2 = some false ∧
        isSameGeometry idFace2 idFace1 = some false :=
  isSameGeometry_geometry_only idFace1 idFace2 "p" "q" (by decide) (by decide)
    (Or.inr (Or.inr (Or.inr fe_one_two)))

end CfdOF
